import Mathlib

/-!
Shallow embedding of the alarm-clock program (`clock.py`) and proofs about it.

Modelling conventions:
* Python strings are Lean `String`s; a JSON object holding the alarm record is
  a structure of `Option String` fields (a missing key is `none`).
* The settings file is a `FileState`: missing, unreadable (`open` raises),
  malformed (`json.load` raises), or storing a record.  `json.dump`/`json.load`
  are modelled at the value level (a dumped object loads back as itself, which
  is the stdlib guarantee for string-valued dicts).
* The filesystem is a function `String → Bool` (model of `os.path.exists`);
  path operations use a POSIX-style model (`isAbs`, `pyJoin`, `pyAbspath`).
* Wall-clock time, `pygame` success and the log timer are inputs of each
  checker tick (`CheckerEnv`).
* Accesses to the shared globals `RINGING` and `STOPPED_THIS_MINUTE`, and
  acquisitions/releases of `LOCK`, are recorded as `AccessEvent` traces so the
  locking discipline can be stated.
-/

namespace AlarmClock

/-- Alarm record as stored in `alarm_settings.json`: the five string keys
written by the `/save` handler.  A `none` field models an absent key. -/
structure AlarmObj where
  hour : Option String
  minute : Option String
  ampm : Option String
  time12 : Option String
  ringtone : Option String
deriving DecidableEq, Repr

/-- The empty record `{}` returned by `load_alarm` on any failure. -/
def emptyAlarm : AlarmObj := ⟨none, none, none, none, none⟩

/-- Python truthiness of `dict.get(key)` for string-valued keys:
`None` and `""` are falsy. -/
def truthy : Option String → Bool
  | none => false
  | some s => s != ""

/-- All four fields required by the checker (`clock.py` line 149) are truthy. -/
def complete (a : AlarmObj) : Bool :=
  truthy a.hour && truthy a.minute && truthy a.ampm && truthy a.ringtone

/-- State of the settings file `alarm_settings.json`. -/
inductive FileState where
  | missing
  | unreadable
  | malformed
  | stored (r : AlarmObj)
deriving DecidableEq, Repr

/-- The body of `load_alarm` without its `try/except` guard: `open` plus
`json.load`, each of which may raise (modelled as `Except.error`). -/
def load_alarm_unguarded : FileState → Except String AlarmObj
  | FileState.missing => Except.error "FileNotFoundError"
  | FileState.unreadable => Except.error "OSError"
  | FileState.malformed => Except.error "JSONDecodeError"
  | FileState.stored r => Except.ok r

/-- Model of `load_alarm` (`clock.py` lines 51-58): return `{}` when the file
does not exist, otherwise read and parse it, mapping any exception to `{}`. -/
def load_alarm (f : FileState) : AlarmObj :=
  if f = FileState.missing then emptyAlarm
  else
    match load_alarm_unguarded f with
    | Except.ok r => r
    | Except.error _ => emptyAlarm

/-- Model of `save_alarm_obj` (`clock.py` lines 60-62): `json.dump` of the
record replaces the whole file content. -/
def save_alarm_obj (r : AlarmObj) : FileState := FileState.stored r

/-- Model of Python `str.strip()`: drop whitespace from both ends. -/
def pyStrip (s : String) : String :=
  String.mk
    (((s.data.dropWhile Char.isWhitespace).reverse.dropWhile
        Char.isWhitespace).reverse)

/-- Model of Python `str.upper()` (ASCII letters, which is all the program
compares). -/
def pyUpper (s : String) : String := String.mk (s.data.map Char.toUpper)

/-- Model of Python `str.startswith(pre)`. -/
def pyStartswith (s pre : String) : Bool := pre.data.isPrefixOf s.data

/-- Model of Python `int(s)` on optionally signed decimal ASCII digit runs:
`none` models `ValueError`. -/
def digitsToNat (l : List Char) : Option Nat :=
  if l ≠ [] ∧ l.all Char.isDigit then
    some (l.foldl (fun a c => a * 10 + (c.toNat - 48)) 0)
  else none

/-- Parse a string the way `int()` does (after stripping whitespace). -/
def pyIntOpt (s : String) : Option Int :=
  match (pyStrip s).data with
  | [] => none
  | c :: rest =>
    if c = '+' then (digitsToNat rest).map Int.ofNat
    else if c = '-' then (digitsToNat rest).map (fun n => -(Int.ofNat n))
    else (digitsToNat (c :: rest)).map Int.ofNat

/-- Model of the format `f"{n:02d}"` for non-negative values. -/
def pad2 (n : Nat) : String :=
  if n < 10 then "0" ++ toString n else toString n

/-- Model of `normalize_time` (`clock.py` lines 64-78): parse hour (default 7)
and minute (default 0), clamp to [1,12] and [0,59], normalize the meridiem
token, and return the two-digit strings plus the combined display string. -/
def normalize_time (hour_str min_str ampm_str : String) :
    String × String × String × String :=
  let h : Int := (pyIntOpt hour_str).getD 7
  let m : Int := (pyIntOpt min_str).getD 0
  let h := max 1 (min 12 h)
  let m := max 0 (min 59 m)
  let ampm := if pyUpper (pyStrip ampm_str) != "PM" then "AM" else "PM"
  (pad2 h.toNat, pad2 m.toNat, ampm,
    pad2 h.toNat ++ ":" ++ pad2 m.toNat ++ " " ++ ampm)

/-- POSIX-style model of `os.path.isabs`. -/
def isAbs (p : String) : Bool := pyStartswith p "/"

/-- Model of `os.path.join a b`: an absolute second component replaces the
first. -/
def pyJoin (a b : String) : String :=
  if isAbs b then b else a ++ "/" ++ b

/-- Model of `os.path.abspath` relative to a current working directory
(normalization of `.`/`..` segments is below the model's floor). -/
def pyAbspath (cwd p : String) : String :=
  if isAbs p then p else pyJoin cwd p

/-- Model of `resolve_tone_path` (`clock.py` lines 117-135) over an abstract
filesystem `fs` (`os.path.exists`).  Candidate list exactly as built by the
source: the literal value first when it starts with the music-dir prefix
(`insert(0, ...)`), then the value when absolute, then the music-dir join,
then the script-dir join; the first existing candidate wins. -/
def resolve_tone_path (fs : String → Bool) (musicDir scriptDir cwd : String)
    (tone_path : String) : Option String :=
  if tone_path = "" then none
  else
    let candidates :=
      (if isAbs tone_path then [tone_path] else []) ++
      [pyJoin musicDir tone_path, pyJoin scriptDir tone_path]
    let candidates :=
      if pyStartswith tone_path musicDir then tone_path :: candidates
      else candidates
    match candidates.find? fs with
    | some p => some (pyAbspath cwd p)
    | none => none

/-- Accesses to the shared globals `RINGING` and `STOPPED_THIS_MINUTE` and to
`LOCK`, recorded in program order. -/
inductive AccessEvent where
  | acquire
  | release
  | readRinging
  | writeRinging
  | readStopped
  | writeStopped
deriving DecidableEq, Repr

/-- Shared state of the checker and the handlers, plus the checker-local
`last_minute_seen`:  `ringing` is `RINGING`, `stopped` is
`STOPPED_THIS_MINUTE` (`none` is Python `None`). -/
structure CheckerState where
  ringing : Bool
  stopped : Option String
  lastMinuteSeen : Option String
deriving DecidableEq, Repr

/-- Process start: `RINGING = False`, `STOPPED_THIS_MINUTE = None`,
`last_minute_seen = None`. -/
def initState : CheckerState := ⟨false, none, none⟩

/-- Model of `play_loop` (`clock.py` lines 87-102): when the mixer is
unavailable it only prints; otherwise `load`/`play` either succeed (`playOk`)
and set `RINGING = True` under `LOCK`, or raise and set `RINGING = False`
under `LOCK`.  Returns the new state and the access trace. -/
def play_loop (audioOk playOk : Bool) (s : CheckerState) :
    CheckerState × List AccessEvent :=
  if !audioOk then (s, [])
  else if playOk then
    ({ s with ringing := true },
     [AccessEvent.acquire, AccessEvent.writeRinging, AccessEvent.release])
  else
    ({ s with ringing := false },
     [AccessEvent.acquire, AccessEvent.writeRinging, AccessEvent.release])

/-- Model of `stop_playback` (`clock.py` lines 104-115): under `LOCK`, read
`RINGING` (the `if RINGING and AUDIO_OK` test), stop the mixer, set
`RINGING = False` and record the current display string into
`STOPPED_THIS_MINUTE`; then print it (a read after the lock is released).
`now12` is `datetime.now().strftime("%I:%M %p")` at the stop. -/
def stop_playback (now12 : String) (s : CheckerState) :
    CheckerState × List AccessEvent :=
  ({ s with ringing := false, stopped := some now12 },
   [AccessEvent.acquire, AccessEvent.readRinging, AccessEvent.writeRinging,
    AccessEvent.writeStopped, AccessEvent.release, AccessEvent.readStopped])

/-- Environment of one iteration of the `alarm_checker` loop: the settings
file, the wall clock (`current_h_m_ampm`), the filesystem and directories used
by `resolve_tone_path`, the audio flags, and whether the 12-second log line is
due on this tick. -/
structure CheckerEnv where
  file : FileState
  nowH : String
  nowM : String
  nowAp : String
  fs : String → Bool
  musicDir : String
  scriptDir : String
  cwd : String
  audioOk : Bool
  playOk : Bool
  logDue : Bool

/-- The display string `now_comp = f"{now_h}:{now_m} {now_ap}"`. -/
def now_comp (e : CheckerEnv) : String :=
  e.nowH ++ ":" ++ e.nowM ++ " " ++ e.nowAp

/-- The minute key `current_minute_key = f"{now_h}:{now_m}"`. -/
def minute_key (e : CheckerEnv) : String := e.nowH ++ ":" ++ e.nowM

/-- Minute-rollover reset (`clock.py` lines 155-158): when the current minute
key differs from `last_minute_seen`, clear `STOPPED_THIS_MINUTE` under `LOCK`
and remember the new key. -/
def resetPhase (e : CheckerEnv) (s : CheckerState) :
    CheckerState × List AccessEvent :=
  if s.lastMinuteSeen ≠ some (minute_key e) then
    ({ s with stopped := none, lastMinuteSeen := some (minute_key e) },
     [AccessEvent.acquire, AccessEvent.writeStopped, AccessEvent.release])
  else (s, [])

/-- The field-by-field match test (`clock.py` lines 166-170). -/
def should_ring (a : AlarmObj) (e : CheckerEnv) : Bool :=
  (a.hour.getD "" == e.nowH) && (a.minute.getD "" == e.nowM) &&
    (pyUpper (a.ampm.getD "") == pyUpper e.nowAp)

/-- Result of one tick: the new state, whether `play_loop` was invoked, and
the trace of shared-state accesses. -/
structure TickResult where
  state : CheckerState
  playLoopCalled : Bool
  events : List AccessEvent
deriving Repr

/-- Model of one iteration of `alarm_checker` (`clock.py` lines 145-182):
load the record; when all four required fields are truthy, run the
minute-rollover reset, possibly print the periodic log line (which reads
`RINGING` outside the lock), snapshot `STOPPED_THIS_MINUTE` and `RINGING`
under `LOCK`, and when the match test passes, the snapshot shows no active
ring and the display string is not the suppressed one, resolve the ringtone
and call `play_loop` if resolution succeeds. -/
def alarm_checker_tick (e : CheckerEnv) (s : CheckerState) : TickResult :=
  let alarm := load_alarm e.file
  if complete alarm then
    let reset := resetPhase e s
    let s1 := reset.1
    let ev2 := if e.logDue then [AccessEvent.readRinging] else []
    let ev3 := [AccessEvent.acquire, AccessEvent.readStopped,
                AccessEvent.readRinging, AccessEvent.release]
    let blocked := s1.stopped == some (now_comp e)
    if should_ring alarm e && !s1.ringing && !blocked then
      match resolve_tone_path e.fs e.musicDir e.scriptDir e.cwd
          (alarm.ringtone.getD "") with
      | some _ =>
        let p := play_loop e.audioOk e.playOk s1
        ⟨p.1, true, reset.2 ++ ev2 ++ ev3 ++ p.2⟩
      | none => ⟨s1, false, reset.2 ++ ev2 ++ ev3⟩
    else ⟨s1, false, reset.2 ++ ev2 ++ ev3⟩
  else ⟨s, false, []⟩

/-- Run a sequence of checker ticks; the boolean records whether any tick
invoked `play_loop`. -/
def runTicks (s : CheckerState) : List CheckerEnv → CheckerState × Bool
  | [] => (s, false)
  | e :: rest =>
    let r := alarm_checker_tick e s
    let rec' := runTicks r.state rest
    (rec'.1, r.playLoopCalled || rec'.2)

/-- Accesses of `RINGING` / `STOPPED_THIS_MINUTE` performed while the lock
depth is zero, collected in order. -/
def unlockedGo : Nat → List AccessEvent → List AccessEvent
  | _, [] => []
  | d, AccessEvent.acquire :: rest => unlockedGo (d + 1) rest
  | d, AccessEvent.release :: rest => unlockedGo (d - 1) rest
  | 0, ev :: rest => ev :: unlockedGo 0 rest
  | d + 1, _ :: rest => unlockedGo (d + 1) rest

/-- Shared-state accesses of a trace that happen outside the lock. -/
def unlockedAccesses (evs : List AccessEvent) : List AccessEvent :=
  unlockedGo 0 evs

/-- Query parameters of a `/save` request: `params.get(key, [default])[0]`
yields the default when the key is absent. -/
structure SaveParams where
  hour : Option String
  minute : Option String
  ampm : Option String
  ringtone : Option String

/-- Response page of the `/save` route. -/
inductive SaveResponse where
  | ringtoneNotFound (raw : String)
  | saved (time12 tone : String)
deriving DecidableEq, Repr

/-- Model of the `/save` branch of `Handler.do_GET` (`clock.py` lines
296-327): read the parameters with their defaults, normalize the time, try to
resolve the ringtone; on failure respond with the error page leaving the file
untouched, on success persist the normalized record with the resolved absolute
path and respond with the confirmation page. -/
def save_route (fs : String → Bool) (musicDir scriptDir cwd : String)
    (p : SaveParams) (file : FileState) : SaveResponse × FileState :=
  let hour := p.hour.getD "07"
  let minute := p.minute.getD "00"
  let ampm := p.ampm.getD "AM"
  let ringtone := p.ringtone.getD ""
  let n := normalize_time hour minute ampm
  match resolve_tone_path fs musicDir scriptDir cwd ringtone with
  | none => (SaveResponse.ringtoneNotFound ringtone, file)
  | some tone_hit =>
    (SaveResponse.saved n.2.2.2 tone_hit,
     save_alarm_obj
       ⟨some n.1, some n.2.1, some n.2.2.1, some n.2.2.2, some tone_hit⟩)

/-- Candidate order as the specification words it: the literal value when it
starts with the music-directory prefix, the value as-is when absolute, the
value joined to the music directory, then the value joined to the script
directory.  Written from the spec's words, to be compared with the source's
`resolve_tone_path`. -/
def spec_candidate_order (musicDir scriptDir tone : String) : List String :=
  (if pyStartswith tone musicDir then [tone] else []) ++
  (if isAbs tone then [tone] else []) ++
  [pyJoin musicDir tone, pyJoin scriptDir tone]

/-- C4: for every input triple, `normalize_time` yields an hour clamped to
[1,12] (defaulting an unparsable hour to 7), a minute clamped to [0,59]
(defaulting an unparsable minute to 0), and the meridiem "PM" exactly when
the stripped, upper-cased token equals "PM", otherwise "AM". -/
theorem C4_normalize_time_clamps (hs ms as : String) :
    (1 : Int) ≤ max 1 (min 12 ((pyIntOpt hs).getD 7)) ∧
    max 1 (min 12 ((pyIntOpt hs).getD 7)) ≤ 12 ∧
    (0 : Int) ≤ max 0 (min 59 ((pyIntOpt ms).getD 0)) ∧
    max 0 (min 59 ((pyIntOpt ms).getD 0)) ≤ 59 ∧
    normalize_time hs ms as =
      (pad2 (max 1 (min 12 ((pyIntOpt hs).getD 7))).toNat,
       pad2 (max 0 (min 59 ((pyIntOpt ms).getD 0))).toNat,
       (if pyUpper (pyStrip as) = "PM" then "PM" else "AM"),
       pad2 (max 1 (min 12 ((pyIntOpt hs).getD 7))).toNat ++ ":" ++
         pad2 (max 0 (min 59 ((pyIntOpt ms).getD 0))).toNat ++ " " ++
         (if pyUpper (pyStrip as) = "PM" then "PM" else "AM")) := by
  refine ⟨le_max_left _ _,
          max_le (by norm_num) (min_le_left _ _),
          le_max_left _ _,
          max_le (by norm_num) (min_le_left _ _), ?_⟩
  by_cases h : pyUpper (pyStrip as) = "PM" <;>
    simp [normalize_time, h]

/-- C5: `resolve_tone_path` returns the first existing candidate in the
spec's order (literal value when it starts with the music-directory prefix,
the value when absolute, the music-directory join, the script-directory
join); it returns the music-directory join for a bare filename existing
there (made absolute, which is the join itself once the music directory is
absolute); and it returns `none` exactly when the input is empty or no
candidate exists. -/
theorem C5_resolve_tone_path (fs : String → Bool)
    (musicDir scriptDir cwd tone : String) :
    (resolve_tone_path fs musicDir scriptDir cwd tone =
      if tone = "" then none
      else ((spec_candidate_order musicDir scriptDir tone).find? fs).map
        (pyAbspath cwd)) ∧
    ((resolve_tone_path fs musicDir scriptDir cwd tone = none) ↔
      (tone = "" ∨
        ∀ p ∈ spec_candidate_order musicDir scriptDir tone, fs p = false)) ∧
    (isAbs tone = false → pyStartswith tone musicDir = false → tone ≠ "" →
      fs (pyJoin musicDir tone) = true →
      resolve_tone_path fs musicDir scriptDir cwd tone =
        some (pyAbspath cwd (pyJoin musicDir tone))) := by
  have horder : ∀ t : String,
      ((if pyStartswith t musicDir then
          t :: ((if isAbs t then [t] else []) ++
            [pyJoin musicDir t, pyJoin scriptDir t])
        else ((if isAbs t then [t] else []) ++
            [pyJoin musicDir t, pyJoin scriptDir t]))) =
      spec_candidate_order musicDir scriptDir t := by
    intro t
    by_cases h : pyStartswith t musicDir <;>
      simp [spec_candidate_order, h]
  have h1 : resolve_tone_path fs musicDir scriptDir cwd tone =
      if tone = "" then none
      else ((spec_candidate_order musicDir scriptDir tone).find? fs).map
        (pyAbspath cwd) := by
    by_cases he : tone = ""
    · simp [resolve_tone_path, he]
    · simp only [resolve_tone_path, he, if_false, horder tone]
      cases h : (spec_candidate_order musicDir scriptDir tone).find? fs <;>
        simp [h]
  refine ⟨h1, ?_, ?_⟩
  · rw [h1]
    by_cases he : tone = ""
    · simp [he]
    · simp only [he, if_false, false_or, Option.map_eq_none']
      rw [List.find?_eq_none]
      constructor <;> intro hh p hp <;> simpa using hh p hp
  · intro habs hpre hne hex
    rw [h1]
    simp only [hne, if_false, spec_candidate_order, habs, hpre, if_false,
      List.nil_append, List.find?, hex]
    rfl

/-- C7: `load_alarm` returns the empty record on a missing, unreadable or
unparsable settings file; whenever the unguarded read/parse pipeline raises,
the guarded `load_alarm` maps the exception to the empty record instead of
propagating it, and in every case it returns either the empty record or the
stored record. -/
theorem C7_load_alarm_soft_fail :
    load_alarm FileState.missing = emptyAlarm ∧
    load_alarm FileState.unreadable = emptyAlarm ∧
    load_alarm FileState.malformed = emptyAlarm ∧
    (∀ (f : FileState) (msg : String),
      load_alarm_unguarded f = Except.error msg → load_alarm f = emptyAlarm) ∧
    (∀ f : FileState,
      load_alarm f = emptyAlarm ∨
        ∃ r, f = FileState.stored r ∧ load_alarm f = r) := by
  refine ⟨rfl, rfl, rfl, ?_, ?_⟩
  · intro f msg h
    cases f <;> simp_all [load_alarm, load_alarm_unguarded]
  · intro f
    cases f <;> simp [load_alarm, load_alarm_unguarded]

/-- C7 witness: the unguarded pipeline raises on a malformed file and the
guarded `load_alarm` returns the empty record there. -/
theorem C7_witness :
    load_alarm_unguarded FileState.malformed =
      Except.error "JSONDecodeError" ∧
    load_alarm FileState.malformed = emptyAlarm :=
  ⟨rfl,
   C7_load_alarm_soft_fail.2.2.2.1 FileState.malformed "JSONDecodeError" rfl⟩

/-- C8: saving a record with all five string fields via `save_alarm_obj` and
reading it back with `load_alarm` returns exactly the record saved. -/
theorem C8_save_load_roundtrip (h m ap t12 ring : String) :
    load_alarm (save_alarm_obj ⟨some h, some m, some ap, some t12, some ring⟩)
      = ⟨some h, some m, some ap, some t12, some ring⟩ := by
  simp [load_alarm, save_alarm_obj, load_alarm_unguarded]

/-- C6: a `/save` request whose ringtone fails to resolve gets the error page
and leaves the settings file untouched; one whose ringtone resolves persists
the normalized record with the resolved absolute path (so that loading the
file afterwards returns it) and gets the confirmation page. -/
theorem C6_save_route_persistence (fs : String → Bool)
    (musicDir scriptDir cwd : String) (p : SaveParams) (file : FileState) :
    (resolve_tone_path fs musicDir scriptDir cwd (p.ringtone.getD "") = none →
      save_route fs musicDir scriptDir cwd p file =
        (SaveResponse.ringtoneNotFound (p.ringtone.getD ""), file)) ∧
    (∀ tone,
      resolve_tone_path fs musicDir scriptDir cwd (p.ringtone.getD "")
        = some tone →
      (save_route fs musicDir scriptDir cwd p file).1 =
        SaveResponse.saved
          (normalize_time (p.hour.getD "07") (p.minute.getD "00")
            (p.ampm.getD "AM")).2.2.2 tone ∧
      load_alarm (save_route fs musicDir scriptDir cwd p file).2 =
        ⟨some (normalize_time (p.hour.getD "07") (p.minute.getD "00")
            (p.ampm.getD "AM")).1,
         some (normalize_time (p.hour.getD "07") (p.minute.getD "00")
            (p.ampm.getD "AM")).2.1,
         some (normalize_time (p.hour.getD "07") (p.minute.getD "00")
            (p.ampm.getD "AM")).2.2.1,
         some (normalize_time (p.hour.getD "07") (p.minute.getD "00")
            (p.ampm.getD "AM")).2.2.2,
         some tone⟩) := by
  constructor
  · intro h
    simp [save_route, h]
  · intro tone h
    simp [save_route, h, load_alarm, save_alarm_obj, load_alarm_unguarded]

/-- C6 witness: with an empty filesystem the ringtone cannot resolve, the
handler answers with the error page and the stored file is unchanged. -/
theorem C6_witness :
    save_route (fun _ => false) "/music" "/app" "/"
        ⟨some "07", some "05", some "AM", some "tone.mp3"⟩
        FileState.missing =
      (SaveResponse.ringtoneNotFound "tone.mp3", FileState.missing) :=
  (C6_save_route_persistence (fun _ => false) "/music" "/app" "/"
      ⟨some "07", some "05", some "AM", some "tone.mp3"⟩
      FileState.missing).1 (by decide)

/-- Complete alarm record used by the concrete scenarios: 07:05 AM with a
bare-filename ringtone. -/
def alarmA : AlarmObj :=
  ⟨some "07", some "05", some "AM", some "07:05 AM", some "tone.mp3"⟩

/-- Filesystem in which only the music-directory copy of the ringtone
exists. -/
def fsA : String → Bool := fun p => p == "/music/tone.mp3"

/-- Filesystem in which no file exists. -/
def fsNone : String → Bool := fun _ => false

/-- Checker environment builder for the concrete scenarios: given file state,
wall clock and filesystem, with the usual directories, a working audio device
and no log line due. -/
def mkEnv (file : FileState) (h m ap : String) (fs : String → Bool) :
    CheckerEnv :=
  ⟨file, h, m, ap, fs, "/music", "/app", "/", true, true, false⟩

/-- 07:05 AM tick with the matching alarm stored and the ringtone present. -/
def envMatch : CheckerEnv := mkEnv (FileState.stored alarmA) "07" "05" "AM" fsA

/-- 07:05 AM tick with the matching alarm stored but an empty filesystem, so
the ringtone cannot resolve. -/
def envNoTone : CheckerEnv :=
  mkEnv (FileState.stored alarmA) "07" "05" "AM" fsNone

/-- 07:04 AM tick with the (not yet matching) alarm stored. -/
def envBefore : CheckerEnv :=
  mkEnv (FileState.stored alarmA) "07" "04" "AM" fsA

/-- 07:06 AM tick with no settings file, hence an incomplete record. -/
def envMissing06 : CheckerEnv := mkEnv FileState.missing "07" "06" "AM" fsA

/-- C1 (amended): on a complete-record tick, `play_loop` is invoked iff the
stored hour, minute and (case-insensitively) meridiem equal the current ones,
playback is not already ringing, the displayed time is not the suppression
value as it stands after the minute-rollover reset, and the stored ringtone
resolves to an existing path; on an incomplete-record tick `play_loop` is
never invoked. -/
theorem C1_trigger_iff (e : CheckerEnv) (s : CheckerState) :
    (complete (load_alarm e.file) = true →
      ((alarm_checker_tick e s).playLoopCalled = true ↔
        ((load_alarm e.file).hour.getD "" = e.nowH ∧
         (load_alarm e.file).minute.getD "" = e.nowM ∧
         pyUpper ((load_alarm e.file).ampm.getD "") = pyUpper e.nowAp ∧
         (resetPhase e s).1.ringing = false ∧
         (resetPhase e s).1.stopped ≠ some (now_comp e) ∧
         (resolve_tone_path e.fs e.musicDir e.scriptDir e.cwd
            ((load_alarm e.file).ringtone.getD "")).isSome = true))) ∧
    (complete (load_alarm e.file) = false →
      (alarm_checker_tick e s).playLoopCalled = false) := by
  constructor
  · intro hc
    by_cases hsr : (should_ring (load_alarm e.file) e &&
        !(resetPhase e s).1.ringing &&
        !((resetPhase e s).1.stopped == some (now_comp e))) = true
    · cases hres : resolve_tone_path e.fs e.musicDir e.scriptDir e.cwd
          ((load_alarm e.file).ringtone.getD "") with
      | none =>
        simp only [alarm_checker_tick, hc, if_true, hsr, hres]
        simp [should_ring, Option.isSome]
      | some tone =>
        simp only [alarm_checker_tick, hc, if_true, hsr, hres]
        simp only [Bool.and_eq_true, Bool.not_eq_true', beq_eq_false_iff_ne,
          should_ring, beq_iff_eq] at hsr
        simp [hsr.1.1.1, hsr.1.1.2, hsr.1.2, hsr.2, hres]
    · simp only [Bool.not_eq_true] at hsr
      simp only [alarm_checker_tick, hc, if_true, hsr, Bool.false_eq_true,
        if_false, false_iff]
      rintro ⟨h1, h2, h3, h4, h5, h6⟩
      have hcond : (should_ring (load_alarm e.file) e &&
          !(resetPhase e s).1.ringing &&
          !((resetPhase e s).1.stopped == some (now_comp e))) = true := by
        simp [should_ring, h1, h2, h3, h4, h5]
      rw [hcond] at hsr
      exact absurd hsr (by simp)
  · intro hc
    simp [alarm_checker_tick, hc]

end AlarmClock

namespace AlarmClock

/-- C1 counterexample: at 07:05 AM with the matching, complete 07:05 AM alarm
stored, playback not ringing and nothing suppressed, yet `play_loop` is not
invoked, because the stored ringtone does not resolve to any existing file —
so the claimed iff, which omits the resolution condition, fails. -/
theorem C1_counterexample :
    complete (load_alarm envNoTone.file) = true ∧
    (load_alarm envNoTone.file).hour.getD "" = envNoTone.nowH ∧
    (load_alarm envNoTone.file).minute.getD "" = envNoTone.nowM ∧
    pyUpper ((load_alarm envNoTone.file).ampm.getD "") =
      pyUpper envNoTone.nowAp ∧
    initState.ringing = false ∧
    (resetPhase envNoTone initState).1.ringing = false ∧
    initState.stopped ≠ some (now_comp envNoTone) ∧
    (resetPhase envNoTone initState).1.stopped ≠ some (now_comp envNoTone) ∧
    (alarm_checker_tick envNoTone initState).playLoopCalled = false := by
  decide

/-- C1 witness: at 07:05 AM with the matching alarm stored and the ringtone
present in the music directory, the tick invokes `play_loop`. -/
theorem C1_witness :
    (alarm_checker_tick envMatch initState).playLoopCalled = true :=
  ((C1_trigger_iff envMatch initState).1 (by decide)).mpr
    (by refine ⟨by decide, by decide, by decide, by decide, by decide,
          by decide⟩)

/-- Helper for the suppression argument: on a tick whose displayed time is
exactly the suppressed one and whose minute key is the one last seen by the
checker, the state is unchanged and `play_loop` is not invoked. -/
theorem tick_blocked_state (e : CheckerEnv) (s : CheckerState)
    (hst : s.stopped = some (now_comp e))
    (hlm : s.lastMinuteSeen = some (minute_key e)) :
    (alarm_checker_tick e s).state = s ∧
    (alarm_checker_tick e s).playLoopCalled = false := by
  have hreset : resetPhase e s = (s, []) := by
    simp [resetPhase, hlm]
  by_cases hc : complete (load_alarm e.file) = true
  · simp [alarm_checker_tick, hc, hreset, hst]
  · simp only [Bool.not_eq_true] at hc
    simp [alarm_checker_tick, hc]

/-- Helper: a run of ticks all displaying the suppressed time, starting from
a state whose last-seen minute key is the current one, never starts playback
and never changes the state. -/
theorem runTicks_blocked (h m ap : String) :
    ∀ (envs : List CheckerEnv) (s : CheckerState),
      s.stopped = some (h ++ ":" ++ m ++ " " ++ ap) →
      s.lastMinuteSeen = some (h ++ ":" ++ m) →
      (∀ e ∈ envs, e.nowH = h ∧ e.nowM = m ∧ e.nowAp = ap) →
      runTicks s envs = (s, false)
  | [], _, _, _, _ => rfl
  | e :: rest, s, h1, h2, h3 => by
    have he := h3 e (List.mem_cons_self e rest)
    have hnc : now_comp e = h ++ ":" ++ m ++ " " ++ ap := by
      simp [now_comp, he.1, he.2.1, he.2.2]
    have hmk : minute_key e = h ++ ":" ++ m := by
      simp [minute_key, he.1, he.2.1]
    have hb := tick_blocked_state e s (by rw [hnc]; exact h1)
      (by rw [hmk]; exact h2)
    have hrest := runTicks_blocked h m ap rest s h1 h2
      (fun e' he' => h3 e' (List.mem_cons_of_mem e he'))
    simp [runTicks, hb.1, hb.2, hrest]

/-- C2 (amended): provided the checker's last-seen minute key already equals
the current one at the moment of the stop, stopping at displayed time T
silences playback, records T as the suppression value, and no subsequent tick
whose displayed time is still T starts playback or changes the state; the
suppression value is cleared only when a complete-record tick observes a new
minute key. -/
theorem C2_stop_suppresses (h m ap : String) (s : CheckerState)
    (envs : List CheckerEnv)
    (hlm : s.lastMinuteSeen = some (h ++ ":" ++ m))
    (henv : ∀ e ∈ envs, e.nowH = h ∧ e.nowM = m ∧ e.nowAp = ap) :
    (stop_playback (h ++ ":" ++ m ++ " " ++ ap) s).1.ringing = false ∧
    (stop_playback (h ++ ":" ++ m ++ " " ++ ap) s).1.stopped =
      some (h ++ ":" ++ m ++ " " ++ ap) ∧
    runTicks ((stop_playback (h ++ ":" ++ m ++ " " ++ ap) s).1) envs =
      ((stop_playback (h ++ ":" ++ m ++ " " ++ ap) s).1, false) := by
  refine ⟨rfl, rfl, ?_⟩
  exact runTicks_blocked h m ap envs _ rfl hlm henv

/-- C2 counterexample: the checker last saw minute key "07:04"; `/stop` is
hit at displayed time "07:05 AM" (before any complete-record tick of minute
07:05), and the very next tick — whose displayed time is still "07:05 AM"
and whose stored alarm matches it — starts playback: the rollover reset
clears the fresh suppression value because the minute key changed relative
to the checker's stale view. -/
theorem C2_counterexample :
    (stop_playback "07:05 AM"
        (alarm_checker_tick envBefore initState).state).1.stopped =
      some "07:05 AM" ∧
    now_comp envMatch = "07:05 AM" ∧
    should_ring (load_alarm envMatch.file) envMatch = true ∧
    (alarm_checker_tick envMatch
        (stop_playback "07:05 AM"
          (alarm_checker_tick envBefore initState).state).1).playLoopCalled =
      true := by
  decide

/-- C2 witness: after a stop at 07:05 AM from a state that has already seen
minute key "07:05", two further 07:05 AM ticks with the matching alarm start
nothing and leave the state alone. -/
theorem C2_witness :
    runTicks
        ((stop_playback ("07" ++ ":" ++ "05" ++ " " ++ "AM")
          ⟨true, none, some ("07" ++ ":" ++ "05")⟩).1)
        [envMatch, envMatch] =
      ((stop_playback ("07" ++ ":" ++ "05" ++ " " ++ "AM")
          ⟨true, none, some ("07" ++ ":" ++ "05")⟩).1, false) :=
  (C2_stop_suppresses "07" "05" "AM" ⟨true, none, some ("07" ++ ":" ++ "05")⟩
    [envMatch, envMatch] rfl (by decide)).2.2

end AlarmClock


namespace AlarmClock

/-- C3 (amended): on a complete-record tick whose minute key differs from the
checker's last-seen minute key, the suppression value is cleared (and the new
key recorded) before the trigger decision, so the decision is independent of
the old suppression value: the tick ends with no suppression value and
`play_loop` is invoked exactly when the match test passes, playback is not
already ringing and the ringtone resolves. -/
theorem C3_reset_clears (e : CheckerEnv) (s : CheckerState)
    (hc : complete (load_alarm e.file) = true)
    (hm : s.lastMinuteSeen ≠ some (minute_key e)) :
    (resetPhase e s).1.stopped = none ∧
    (resetPhase e s).1.lastMinuteSeen = some (minute_key e) ∧
    (alarm_checker_tick e s).state.stopped = none ∧
    (alarm_checker_tick e s).state.lastMinuteSeen = some (minute_key e) ∧
    (alarm_checker_tick e s).playLoopCalled =
      (should_ring (load_alarm e.file) e && !s.ringing &&
        (resolve_tone_path e.fs e.musicDir e.scriptDir e.cwd
          ((load_alarm e.file).ringtone.getD "")).isSome) := by
  have hreset : resetPhase e s =
      ({ s with stopped := none, lastMinuteSeen := some (minute_key e) },
       [AccessEvent.acquire, AccessEvent.writeStopped, AccessEvent.release])
      := by
    simp [resetPhase, hm]
  refine ⟨by rw [hreset], by rw [hreset], ?_, ?_, ?_⟩
  all_goals
    simp only [alarm_checker_tick, hc, if_true, hreset]
  all_goals
    cases hsr : should_ring (load_alarm e.file) e <;>
    cases hr : s.ringing <;>
    cases hres : resolve_tone_path e.fs e.musicDir e.scriptDir e.cwd
        ((load_alarm e.file).ringtone.getD "") <;>
    simp [hsr, hr, hres, play_loop] <;>
    cases e.audioOk <;> cases e.playOk <;> simp

/-- C3 counterexample: the suppression value "07:05 AM" is set; the next tick
has displayed minute 06 (different from the recorded 05) but no complete
alarm record is stored, and the suppression value survives the tick — so the
claim that it is cleared on the next tick whose displayed minute differs from
the recorded one fails; clearing is keyed to complete-record ticks and to the
checker's last-seen minute key instead. -/
theorem C3_counterexample :
    (stop_playback "07:05 AM" initState).1.stopped = some "07:05 AM" ∧
    envMissing06.nowM ≠ "05" ∧
    (alarm_checker_tick envMissing06
        (stop_playback "07:05 AM" initState).1).state.stopped =
      some "07:05 AM" := by
  decide

/-- C3 witness: with the complete 07:05 AM alarm stored, suppression value
"07:05 AM" and last-seen key "07:04", the 07:05 AM tick ends with the
suppression value cleared. -/
theorem C3_witness :
    (alarm_checker_tick envMatch
        ⟨false, some "07:05 AM", some "07:04"⟩).state.stopped = none :=
  (C3_reset_clears envMatch ⟨false, some "07:05 AM", some "07:04"⟩
    (by decide) (by decide)).2.2.1

end AlarmClock

namespace AlarmClock

/-- Helper: a run of ticks that all see an incomplete record changes nothing
and starts nothing. -/
theorem runTicks_incomplete :
    ∀ (envs : List CheckerEnv) (s : CheckerState),
      (∀ e ∈ envs, complete (load_alarm e.file) = false) →
      runTicks s envs = (s, false)
  | [], _, _ => rfl
  | e :: rest, s, h => by
    have he : complete (load_alarm e.file) = false :=
      h e (List.mem_cons_self e rest)
    have htick : alarm_checker_tick e s = ⟨s, false, []⟩ := by
      simp [alarm_checker_tick, he]
    have hrest := runTicks_incomplete rest s
      (fun e' he' => h e' (List.mem_cons_of_mem e he'))
    simp [runTicks, htick, hrest]

/-- C10: a tick that sees a record with any required field missing or empty
skips the whole body: the state — including the suppression value and the
last-seen minute key — is unchanged and `play_loop` is not invoked; hence a
suppression value recorded by `stop_playback` persists unchanged across any
run of incomplete-record ticks, whatever displayed minutes they see. -/
theorem C10_incomplete_skips_reset :
    (∀ (e : CheckerEnv) (s : CheckerState),
      complete (load_alarm e.file) = false →
      alarm_checker_tick e s = ⟨s, false, []⟩) ∧
    (∀ (T : String) (s : CheckerState) (envs : List CheckerEnv),
      (∀ e ∈ envs, complete (load_alarm e.file) = false) →
      (stop_playback T s).1.stopped = some T ∧
      runTicks ((stop_playback T s).1) envs =
        ((stop_playback T s).1, false)) := by
  constructor
  · intro e s h
    simp [alarm_checker_tick, h]
  · intro T s envs h
    exact ⟨rfl, runTicks_incomplete envs _ h⟩

/-- C10 witness: after a stop at 07:05 AM, a tick at the later minute 07:06
with a missing settings file leaves the suppression value in place. -/
theorem C10_witness :
    runTicks ((stop_playback "07:05 AM" initState).1) [envMissing06] =
      ((stop_playback "07:05 AM" initState).1, false) :=
  (C10_incomplete_skips_reset.2 "07:05 AM" initState [envMissing06]
    (by decide)).2

/-- Helper: the unlocked accesses of any complete-tick event trace — a
possible reset block, a possible log read, the snapshot block and a possible
`play_loop` block — are exactly the log read. -/
theorem unlockedGo_shape (ev1 ev2 ev4 : List AccessEvent)
    (h1 : ev1 = [] ∨
      ev1 = [AccessEvent.acquire, AccessEvent.writeStopped,
             AccessEvent.release])
    (h2 : ev2 = [] ∨ ev2 = [AccessEvent.readRinging])
    (h4 : ev4 = [] ∨
      ev4 = [AccessEvent.acquire, AccessEvent.writeRinging,
             AccessEvent.release]) :
    unlockedGo 0 (ev1 ++ ev2 ++
      [AccessEvent.acquire, AccessEvent.readStopped,
       AccessEvent.readRinging, AccessEvent.release] ++ ev4) = ev2 := by
  rcases h1 with rfl | rfl <;> rcases h2 with rfl | rfl <;>
    rcases h4 with rfl | rfl <;> rfl

/-- C9 (amended): every write of `RINGING` or `STOPPED_THIS_MINUTE` happens
under `LOCK`, and the only accesses outside the lock are two reads used for
logging: `stop_playback`'s final print of `STOPPED_THIS_MINUTE` (`clock.py`
line 115) and the checker's periodic log read of `RINGING` (line 162);
`play_loop` does all its accesses under the lock. -/
theorem C9_lock_discipline :
    (∀ (now12 : String) (s : CheckerState),
      unlockedAccesses (stop_playback now12 s).2 = [AccessEvent.readStopped]) ∧
    (∀ (a p : Bool) (s : CheckerState),
      unlockedAccesses (play_loop a p s).2 = []) ∧
    (∀ (e : CheckerEnv) (s : CheckerState),
      unlockedAccesses (alarm_checker_tick e s).events =
        if complete (load_alarm e.file) && e.logDue
        then [AccessEvent.readRinging] else []) := by
  refine ⟨fun now12 s => rfl, ?_, ?_⟩
  · intro a p s
    cases a <;> cases p <;> rfl
  · intro e s
    by_cases hc : complete (load_alarm e.file) = true
    · have hev1 : (resetPhase e s).2 = [] ∨
          (resetPhase e s).2 = [AccessEvent.acquire, AccessEvent.writeStopped,
            AccessEvent.release] := by
        by_cases hm : s.lastMinuteSeen = some (minute_key e) <;>
          simp [resetPhase, hm]
      have hexists : ∃ ev4,
          (ev4 = [] ∨ ev4 = [AccessEvent.acquire, AccessEvent.writeRinging,
            AccessEvent.release]) ∧
          (alarm_checker_tick e s).events =
            (resetPhase e s).2 ++
              (if e.logDue = true then [AccessEvent.readRinging] else []) ++
              [AccessEvent.acquire, AccessEvent.readStopped,
               AccessEvent.readRinging, AccessEvent.release] ++ ev4 := by
        simp only [alarm_checker_tick, hc, if_true]
        split
        · split
          · refine ⟨(play_loop e.audioOk e.playOk (resetPhase e s).1).2,
              ?_, by simp⟩
            cases e.audioOk <;> cases e.playOk <;> simp [play_loop]
          · exact ⟨[], Or.inl rfl, by simp⟩
        · exact ⟨[], Or.inl rfl, by simp⟩
      obtain ⟨ev4, h4, hev⟩ := hexists
      rw [unlockedAccesses, hev,
        unlockedGo_shape _ _ _ hev1 (by cases e.logDue <;> simp) h4]
      cases hl : e.logDue <;> simp [hc, hl]
    · simp only [Bool.not_eq_true] at hc
      simp [alarm_checker_tick, hc, unlockedAccesses, unlockedGo]

/-- C9 counterexample: `stop_playback` reads `STOPPED_THIS_MINUTE` for its
print statement after releasing the lock, and the checker's periodic log line
reads `RINGING` without taking the lock — so the claim that every read of the
shared playback state happens under the lock fails. -/
theorem C9_counterexample :
    unlockedAccesses (stop_playback "07:05 AM" initState).2 =
      [AccessEvent.readStopped] ∧
    unlockedAccesses
        (alarm_checker_tick
          { envMatch with logDue := true } initState).events =
      [AccessEvent.readRinging] := by
  decide

end AlarmClock

namespace AlarmClock

/-- C5 witness: the bare filename "tone.mp3", present only in the music
directory, resolves to the music-directory join. -/
theorem C5_witness :
    resolve_tone_path fsA "/music" "/app" "/" "tone.mp3" =
      some (pyAbspath "/" (pyJoin "/music" "tone.mp3")) :=
  (C5_resolve_tone_path fsA "/music" "/app" "/" "tone.mp3").2.2
    (by decide) (by decide) (by decide) (by decide)

end AlarmClock
